import Mathlib

/-!
Verification of the FGAme `AABB` axis-aligned rigid body (`src/FGAme/physics/obj_aabb.py`).

Numeric model: Python float values that arise in the claims are modelled by `ℚ`
(the operations involved — sums, differences, products, halving — are exact),
so exact equalities over `ℚ` imply the spec's 1e-9 floating-point tolerance.
The constant `inf` stored in `inertia` is modelled by a dedicated extended value.

The repository ships only `obj_aabb.py`; its collaborators `LinearRigidBody`
(from `FGAme.physics.obj_all`) and `aabb_bbox` (from `FGAme.mathutils`) are
absent from the sources, so they are modelled from the spec (see their
doc comments).
-/

namespace FGAme

/-- A 2D vector with independently settable components, standing for the
position/velocity vectors owned by the base body. -/
structure Vec2 where
  x : ℚ
  y : ℚ
  deriving DecidableEq, Repr

/-- A Python float that is either a finite value or positive infinity; used for
the `inertia` attribute, which the source's doc-test shows to be `inf`. -/
inductive PyFloat where
  | finite (q : ℚ)
  | inf
  deriving DecidableEq, Repr

/-- The construction-time error taxonomy of the spec (§7). -/
inductive ConstructionError where
  | constructionAmbiguityError
  | invalidGeometryError
  deriving DecidableEq, Repr

/-- Modelled from the spec: `aabb_bbox` lives in `FGAme.mathutils`, which is not
under `src/`.  Per §4.1 it resolves the four accepted construction forms, in
precedence order `bbox`, `rect=(x,y,w,h)`, `shape=(w,h)` centred at `pos`
(default origin), then the four individual extents; it fails with
`ConstructionAmbiguityError` when no form is fully determinable and with
`InvalidGeometryError` when the resolved extents are inverted. -/
def aabb_bbox (bbox? rect? : Option (ℚ × ℚ × ℚ × ℚ)) (shape? : Option (ℚ × ℚ))
    (pos? : Option (ℚ × ℚ)) (xmin? xmax? ymin? ymax? : Option ℚ) :
    Except ConstructionError (ℚ × ℚ × ℚ × ℚ) :=
  let check : ℚ × ℚ × ℚ × ℚ → Except ConstructionError (ℚ × ℚ × ℚ × ℚ) := fun r =>
    if r.1 ≤ r.2.1 ∧ r.2.2.1 ≤ r.2.2.2 then .ok r
    else .error .invalidGeometryError
  match bbox? with
  | some r => check r
  | none =>
    match rect? with
    | some (x, y, w, h) => check (x, x + w, y, y + h)
    | none =>
      match shape? with
      | some (w, h) =>
        let p := pos?.getD (0, 0)
        check (p.1 - w / 2, p.1 + w / 2, p.2 - h / 2, p.2 + h / 2)
      | none =>
        match xmin?, xmax?, ymin?, ymax? with
        | some a, some b, some c, some d => check (a, b, c, d)
        | _, _, _, _ => .error .constructionAmbiguityError

/-- The observable state of an `AABB` body: the four extents `_xmin`, `_xmax`,
`_ymin`, `_ymax`, the `_pos` and `_vel` vectors, and the mass and inertia
attributes held by the base body. -/
structure AABB where
  xmin : ℚ
  xmax : ℚ
  ymin : ℚ
  ymax : ℚ
  pos : Vec2
  vel : Vec2
  mass : ℚ
  inertia : PyFloat
  deriving DecidableEq, Repr

/-- Modelled from the spec: `LinearRigidBody.__init__` (from
`FGAme.physics.obj_all`, not under `src/`).  Per §6 it stores the extents,
position and velocity, and resolves mass by the area/density/explicit-mass
precedence of §3 (I3): explicit `mass` wins; otherwise `mass = area * density`
with `density` defaulting to `1.0`.  Inertia is always positive infinity for
this body type. -/
def LinearRigidBody.init (xmin xmax ymin ymax : ℚ) (pos vel : ℚ × ℚ)
    (mass? density? : Option ℚ) : AABB :=
  let area := (xmax - xmin) * (ymax - ymin)
  let m : ℚ :=
    match mass? with
    | some m => m
    | none => area * density?.getD 1
  { xmin := xmin, xmax := xmax, ymin := ymin, ymax := ymax,
    pos := ⟨pos.1, pos.2⟩, vel := ⟨vel.1, vel.2⟩,
    mass := m, inertia := .inf }

/-- `AABB.__init__` from the source: resolves the extents through `aabb_bbox`,
computes `pos = ((xmin + xmax) / 2, (ymin + ymax) / 2)`, then delegates to the
base-body constructor.  Python keyword arguments become `Option` parameters in
source order; positional extents `AABB(a, b, c, d)` are the call with
`xmin? = some a, …, ymax? = some d`. -/
def AABB.init (xmin? xmax? ymin? ymax? : Option ℚ) (pos? : Option (ℚ × ℚ))
    (vel : ℚ × ℚ) (mass? density? : Option ℚ)
    (bbox? : Option (ℚ × ℚ × ℚ × ℚ)) (shape? : Option (ℚ × ℚ))
    (rect? : Option (ℚ × ℚ × ℚ × ℚ)) : Except ConstructionError AABB :=
  match aabb_bbox bbox? rect? shape? pos? xmin? xmax? ymin? ymax? with
  | .error e => .error e
  | .ok (xmin, xmax, ymin, ymax) =>
    .ok (LinearRigidBody.init xmin xmax ymin ymax
      ((xmin + xmax) / 2, (ymin + ymax) / 2) vel mass? density?)

/-- The `xmin` setter from the source: `self._xmin = float(value)` then
`self._pos.x = (self._xmax - self._xmin) / 2`. -/
def AABB.set_xmin (b : AABB) (value : ℚ) : AABB :=
  { b with xmin := value, pos := { b.pos with x := (b.xmax - value) / 2 } }

/-- The `xmax` setter from the source: `self._xmax = float(value)` then
`self._pos.x = (self._xmax - self._xmin) / 2`. -/
def AABB.set_xmax (b : AABB) (value : ℚ) : AABB :=
  { b with xmax := value, pos := { b.pos with x := (value - b.xmin) / 2 } }

/-- The `ymin` setter from the source: `self._ymin = float(value)` then
`self._pos.y = (self._ymax - self._ymin) / 2`. -/
def AABB.set_ymin (b : AABB) (value : ℚ) : AABB :=
  { b with ymin := value, pos := { b.pos with y := (b.ymax - value) / 2 } }

/-- The `ymax` setter from the source: `self._ymax = float(value)` then
`self._pos.y = (self._ymax - self._ymin) / 2`. -/
def AABB.set_ymax (b : AABB) (value : ℚ) : AABB :=
  { b with ymax := value, pos := { b.pos with y := (value - b.ymin) / 2 } }

/-- Modelled from the spec: the `bbox` accessor of the base body (not under
`src/`) returns the tuple `(xmin, xmax, ymin, ymax)`, as the source's own
doc-test shows (`A.bbox == (-50.0, 50.0, -100.0, 100.0)`). -/
def AABB.bbox (b : AABB) : ℚ × ℚ × ℚ × ℚ := (b.xmin, b.xmax, b.ymin, b.ymax)

/-- `AABB.area` from the source: `(self._xmax - self._xmin) * (self._ymax - self._ymin)`.
It reads the state and builds nothing else, so in this embedding it is a pure
function of the state — the "no side effects" part of the claim. -/
def AABB.area (b : AABB) : ℚ := (b.xmax - b.xmin) * (b.ymax - b.ymin)

/-- `AABB.ROG_sqr` from the source: `(a ** 2 + b ** 2) / 12` for the two side
lengths. -/
def AABB.ROG_sqr (b : AABB) : ℚ :=
  ((b.xmax - b.xmin) ^ 2 + (b.ymax - b.ymin) ^ 2) / 12

/-- `AABB.primitive` from the source: `AABB(bbox=self.bbox)` — a fresh body
built from the current bounding box with all other constructor arguments left
at their defaults (`vel=(0, 0)`, no mass, no density). -/
def AABB.primitive (b : AABB) : Except ConstructionError AABB :=
  AABB.init none none none none none (0, 0) none none (some b.bbox) none none

/-- One write to a single extent property, for stating facts about arbitrary
sequences of extent mutations. -/
inductive ExtentWrite where
  | wxmin (v : ℚ)
  | wxmax (v : ℚ)
  | wymin (v : ℚ)
  | wymax (v : ℚ)
  deriving DecidableEq, Repr

/-- Apply one extent-property write. -/
def applyWrite (b : AABB) : ExtentWrite → AABB
  | .wxmin v => b.set_xmin v
  | .wxmax v => b.set_xmax v
  | .wymin v => b.set_ymin v
  | .wymax v => b.set_ymax v

/-- Apply a sequence of extent-property writes, first element first. -/
def applyWrites (b : AABB) (l : List ExtentWrite) : AABB :=
  l.foldl applyWrite b

end FGAme

namespace FGAme

/-! ## Helper lemmas shared by the claim theorems -/

/-- Inversion for `AABB.init`: a successful construction is the base-body
constructor applied to the resolved extents, with `pos` the true midpoint. -/
theorem init_ok_elim (xmin? xmax? ymin? ymax? : Option ℚ) (pos? : Option (ℚ × ℚ))
    (vel : ℚ × ℚ) (mass? density? : Option ℚ) (bbox? : Option (ℚ × ℚ × ℚ × ℚ))
    (shape? : Option (ℚ × ℚ)) (rect? : Option (ℚ × ℚ × ℚ × ℚ)) (s : AABB)
    (h : AABB.init xmin? xmax? ymin? ymax? pos? vel mass? density? bbox? shape? rect? = .ok s) :
    ∃ x0 x1 y0 y1, s = LinearRigidBody.init x0 x1 y0 y1
      ((x0 + x1) / 2, (y0 + y1) / 2) vel mass? density? := by
  unfold AABB.init at h
  cases haabb : aabb_bbox bbox? rect? shape? pos? xmin? xmax? ymin? ymax? with
  | error e => rw [haabb] at h; cases h
  | ok r =>
    obtain ⟨x0, x1, y0, y1⟩ := r
    rw [haabb] at h
    simp only [Except.ok.injEq] at h
    exact ⟨x0, x1, y0, y1, h.symm⟩

end FGAme

namespace FGAme

/-! ## Claim theorems -/

/-- C9: `area()` returns `(xmax - xmin) * (ymax - ymin)`; in this embedding it
is a pure function of the state (no side effects), and under the invariant
`xmin ≤ xmax` and `ymin ≤ ymax` its result is non-negative. -/
theorem C9_area_correct (b : AABB) :
    b.area = (b.xmax - b.xmin) * (b.ymax - b.ymin) ∧
      (b.xmin ≤ b.xmax → b.ymin ≤ b.ymax → 0 ≤ b.area) :=
  ⟨rfl, fun hx hy => mul_nonneg (sub_nonneg.mpr hx) (sub_nonneg.mpr hy)⟩

/-- Witness for C9 at the concrete body with extents `(0, 100, 0, 200)`. -/
theorem C9_area_correct_witness :
    AABB.area ⟨0, 100, 0, 200, ⟨50, 100⟩, ⟨0, 0⟩, 20000, .inf⟩ =
        (100 - 0) * (200 - 0) ∧
      0 ≤ AABB.area ⟨0, 100, 0, 200, ⟨50, 100⟩, ⟨0, 0⟩, 20000, .inf⟩ :=
  ⟨(C9_area_correct _).1,
   (C9_area_correct ⟨0, 100, 0, 200, ⟨50, 100⟩, ⟨0, 0⟩, 20000, .inf⟩).2
     (by norm_num) (by norm_num)⟩

/-- C7: each extent setter is a total function of the body state and the new
value (it cannot fail, even when the write makes `xmin > xmax` or
`ymin > ymax`), and it changes only the written extent field and the
corresponding position component: the other three extents, the other position
axis, the velocity and the mass are unchanged. -/
theorem C7_setter_frame (b : AABB) (v : ℚ) :
    ((b.set_xmin v).xmax = b.xmax ∧ (b.set_xmin v).ymin = b.ymin ∧
      (b.set_xmin v).ymax = b.ymax ∧ (b.set_xmin v).pos.y = b.pos.y ∧
      (b.set_xmin v).vel = b.vel ∧ (b.set_xmin v).mass = b.mass) ∧
    ((b.set_xmax v).xmin = b.xmin ∧ (b.set_xmax v).ymin = b.ymin ∧
      (b.set_xmax v).ymax = b.ymax ∧ (b.set_xmax v).pos.y = b.pos.y ∧
      (b.set_xmax v).vel = b.vel ∧ (b.set_xmax v).mass = b.mass) ∧
    ((b.set_ymin v).xmin = b.xmin ∧ (b.set_ymin v).xmax = b.xmax ∧
      (b.set_ymin v).ymax = b.ymax ∧ (b.set_ymin v).pos.x = b.pos.x ∧
      (b.set_ymin v).vel = b.vel ∧ (b.set_ymin v).mass = b.mass) ∧
    ((b.set_ymax v).xmin = b.xmin ∧ (b.set_ymax v).xmax = b.xmax ∧
      (b.set_ymax v).ymin = b.ymin ∧ (b.set_ymax v).pos.x = b.pos.x ∧
      (b.set_ymax v).vel = b.vel ∧ (b.set_ymax v).mass = b.mass) :=
  ⟨⟨rfl, rfl, rfl, rfl, rfl, rfl⟩, ⟨rfl, rfl, rfl, rfl, rfl, rfl⟩,
   ⟨rfl, rfl, rfl, rfl, rfl, rfl⟩, ⟨rfl, rfl, rfl, rfl, rfl, rfl⟩⟩

/-- C10: writes to two distinct extent properties commute, leaving the body in
exactly the same state (all four extents, both position components, velocity —
indeed the whole record); all six unordered pairs of distinct extents. -/
theorem C10_setters_commute (b : AABB) (a v : ℚ) :
    (b.set_xmin a).set_xmax v = (b.set_xmax v).set_xmin a ∧
    (b.set_xmin a).set_ymin v = (b.set_ymin v).set_xmin a ∧
    (b.set_xmin a).set_ymax v = (b.set_ymax v).set_xmin a ∧
    (b.set_xmax a).set_ymin v = (b.set_ymin v).set_xmax a ∧
    (b.set_xmax a).set_ymax v = (b.set_ymax v).set_xmax a ∧
    (b.set_ymin a).set_ymax v = (b.set_ymax v).set_ymin a :=
  ⟨rfl, rfl, rfl, rfl, rfl, rfl⟩

/-- C4: each extent setter stores the written value in its extent field and
immediately recomputes the corresponding position axis as
`(xmax - xmin) / 2` (x-extents) or `(ymax - ymin) / 2` (y-extents), evaluated
on the updated state; concretely, constructing with `bbox=(0, 100, 0, 200)`
and then setting `xmax := 150` yields `bbox() = (0, 150, 0, 200)` and
`position.x = 75`. -/
theorem C4_extent_setters (b : AABB) (v : ℚ) :
    ((b.set_xmin v).xmin = v ∧
      (b.set_xmin v).pos.x = ((b.set_xmin v).xmax - (b.set_xmin v).xmin) / 2) ∧
    ((b.set_xmax v).xmax = v ∧
      (b.set_xmax v).pos.x = ((b.set_xmax v).xmax - (b.set_xmax v).xmin) / 2) ∧
    ((b.set_ymin v).ymin = v ∧
      (b.set_ymin v).pos.y = ((b.set_ymin v).ymax - (b.set_ymin v).ymin) / 2) ∧
    ((b.set_ymax v).ymax = v ∧
      (b.set_ymax v).pos.y = ((b.set_ymax v).ymax - (b.set_ymax v).ymin) / 2) ∧
    (AABB.init none none none none none (0, 0) none none (some (0, 100, 0, 200))
        none none).map
      (fun s => ((s.set_xmax 150).bbox, (s.set_xmax 150).pos.x)) =
      .ok ((0, 150, 0, 200), 75) := by
  refine ⟨⟨rfl, rfl⟩, ⟨rfl, rfl⟩, ⟨rfl, rfl⟩, ⟨rfl, rfl⟩, ?_⟩
  norm_num [AABB.init, aabb_bbox, LinearRigidBody.init, AABB.set_xmax, AABB.bbox,
    Except.map]

/-- C8: when no `bbox`, `rect` or `shape` form is supplied and at least one of
the four individual extents is missing, construction fails synchronously with
`ConstructionAmbiguityError` (no default substitution). -/
theorem C8_construction_ambiguity (xmin? xmax? ymin? ymax? : Option ℚ)
    (pos? : Option (ℚ × ℚ)) (vel : ℚ × ℚ) (mass? density? : Option ℚ)
    (h : xmin? = none ∨ xmax? = none ∨ ymin? = none ∨ ymax? = none) :
    AABB.init xmin? xmax? ymin? ymax? pos? vel mass? density? none none none =
      .error .constructionAmbiguityError := by
  unfold AABB.init aabb_bbox
  cases xmin? <;> cases xmax? <;> cases ymin? <;> cases ymax? <;> simp_all

/-- Witness for C8: only `xmin=0` and `xmax=100` supplied, no y-extents. -/
theorem C8_construction_ambiguity_witness :
    AABB.init (some 0) (some 100) none none none (0, 0) none none none none none =
      .error .constructionAmbiguityError :=
  C8_construction_ambiguity (some 0) (some 100) none none none (0, 0) none none
    (Or.inr (Or.inr (Or.inl rfl)))

end FGAme

namespace FGAme

/-- Whether an extent write targets the x-axis (`xmin` or `xmax`). -/
def ExtentWrite.isX : ExtentWrite → Bool
  | .wxmin _ => true
  | .wxmax _ => true
  | .wymin _ => false
  | .wymax _ => false

/-- A single write preserves `pos.x = (xmax - xmin) / 2` when it already holds. -/
theorem applyWrite_xcenter (b : AABB) (w : ExtentWrite)
    (h : b.pos.x = (b.xmax - b.xmin) / 2) :
    (applyWrite b w).pos.x = ((applyWrite b w).xmax - (applyWrite b w).xmin) / 2 := by
  cases w <;>
    simp_all [applyWrite, AABB.set_xmin, AABB.set_xmax, AABB.set_ymin, AABB.set_ymax]

/-- A write to an x-extent establishes `pos.x = (xmax - xmin) / 2` outright. -/
theorem applyWrite_xcenter_of_isX (b : AABB) (w : ExtentWrite) (h : w.isX = true) :
    (applyWrite b w).pos.x = ((applyWrite b w).xmax - (applyWrite b w).xmin) / 2 := by
  cases w <;> simp_all [ExtentWrite.isX, applyWrite, AABB.set_xmin, AABB.set_xmax]

/-- A write sequence preserves `pos.x = (xmax - xmin) / 2` when it already holds. -/
theorem applyWrites_xcenter (b : AABB) (l : List ExtentWrite)
    (h : b.pos.x = (b.xmax - b.xmin) / 2) :
    (applyWrites b l).pos.x = ((applyWrites b l).xmax - (applyWrites b l).xmin) / 2 := by
  induction l generalizing b with
  | nil => simpa [applyWrites] using h
  | cons w t ih =>
    have hstep : applyWrites b (w :: t) = applyWrites (applyWrite b w) t := rfl
    rw [hstep]
    exact ih _ (applyWrite_xcenter b w h)

/-- A single write preserves `pos.y = (ymax - ymin) / 2` when it already holds. -/
theorem applyWrite_ycenter (b : AABB) (w : ExtentWrite)
    (h : b.pos.y = (b.ymax - b.ymin) / 2) :
    (applyWrite b w).pos.y = ((applyWrite b w).ymax - (applyWrite b w).ymin) / 2 := by
  cases w <;>
    simp_all [applyWrite, AABB.set_xmin, AABB.set_xmax, AABB.set_ymin, AABB.set_ymax]

/-- A write to a y-extent establishes `pos.y = (ymax - ymin) / 2` outright. -/
theorem applyWrite_ycenter_of_isY (b : AABB) (w : ExtentWrite) (h : w.isX = false) :
    (applyWrite b w).pos.y = ((applyWrite b w).ymax - (applyWrite b w).ymin) / 2 := by
  cases w <;> simp_all [ExtentWrite.isX, applyWrite, AABB.set_ymin, AABB.set_ymax]

/-- A write sequence preserves `pos.y = (ymax - ymin) / 2` when it already holds. -/
theorem applyWrites_ycenter (b : AABB) (l : List ExtentWrite)
    (h : b.pos.y = (b.ymax - b.ymin) / 2) :
    (applyWrites b l).pos.y = ((applyWrites b l).ymax - (applyWrites b l).ymin) / 2 := by
  induction l generalizing b with
  | nil => simpa [applyWrites] using h
  | cons w t ih =>
    have hstep : applyWrites b (w :: t) = applyWrites (applyWrite b w) t := rfl
    rw [hstep]
    exact ih _ (applyWrite_ycenter b w h)

/-- C1: counterexample — constructing via `bbox=(10, 110, 0, 200)` stores
`position.x = 60` (the true midpoint `(xmin + xmax) / 2`), while invariant I2
demands `(xmax - xmin) / 2 = 50`; the difference is `10`, far beyond the
claimed `1e-9` tolerance, so I2 does not hold immediately after construction. -/
theorem C1_counterexample :
    (AABB.init none none none none none (0, 0) none none (some (10, 110, 0, 200))
        none none).map (fun s => (s.pos.x, (s.xmax - s.xmin) / 2)) = .ok (60, 50) ∧
      (60 : ℚ) ≠ 50 ∧ (1 : ℚ) / 1000000000 < |(60 : ℚ) - 50| := by
  refine ⟨?_, by norm_num, by norm_num⟩
  norm_num [AABB.init, aabb_bbox, LinearRigidBody.init, Except.map]

/-- C1 (amended): `position.x = (xmax - xmin) / 2` holds after any sequence of
extent-property writes that contains a write to `xmin` or `xmax`, and
`position.y = (ymax - ymin) / 2` after any sequence containing a write to
`ymin` or `ymax`; immediately after construction, `position` instead equals the
true midpoint `((xmin + xmax) / 2, (ymin + ymax) / 2)`. -/
theorem C1_center_invariant (b : AABB) (l : List ExtentWrite) :
    ((∃ w ∈ l, w.isX = true) →
        (applyWrites b l).pos.x =
          ((applyWrites b l).xmax - (applyWrites b l).xmin) / 2) ∧
    ((∃ w ∈ l, w.isX = false) →
        (applyWrites b l).pos.y =
          ((applyWrites b l).ymax - (applyWrites b l).ymin) / 2) ∧
    (∀ xmin? xmax? ymin? ymax? pos? vel mass? density? bbox? shape? rect?
        (s : AABB),
      AABB.init xmin? xmax? ymin? ymax? pos? vel mass? density? bbox? shape?
          rect? = .ok s →
        s.pos.x = (s.xmin + s.xmax) / 2 ∧ s.pos.y = (s.ymin + s.ymax) / 2) := by
  refine ⟨?_, ?_, ?_⟩
  · induction l generalizing b with
    | nil => rintro ⟨w, hw, -⟩; cases hw
    | cons a t ih =>
      rintro ⟨w, hw, hx⟩
      have hstep : applyWrites b (a :: t) = applyWrites (applyWrite b a) t := rfl
      rcases List.mem_cons.mp hw with rfl | hmem
      · rw [hstep]
        exact applyWrites_xcenter _ t (applyWrite_xcenter_of_isX b w hx)
      · rw [hstep]
        exact ih _ ⟨w, hmem, hx⟩
  · induction l generalizing b with
    | nil => rintro ⟨w, hw, -⟩; cases hw
    | cons a t ih =>
      rintro ⟨w, hw, hy⟩
      have hstep : applyWrites b (a :: t) = applyWrites (applyWrite b a) t := rfl
      rcases List.mem_cons.mp hw with rfl | hmem
      · rw [hstep]
        exact applyWrites_ycenter _ t (applyWrite_ycenter_of_isY b w hy)
      · rw [hstep]
        exact ih _ ⟨w, hmem, hy⟩
  · intro xmin? xmax? ymin? ymax? pos? vel mass? density? bbox? shape? rect? s h
    obtain ⟨x0, x1, y0, y1, rfl⟩ :=
      init_ok_elim xmin? xmax? ymin? ymax? pos? vel mass? density? bbox? shape?
        rect? s h
    exact ⟨rfl, rfl⟩

/-- Witness for C1 (amended): one `xmax := 150` write on a concrete body. -/
theorem C1_center_invariant_witness :
    (applyWrites ⟨0, 100, 0, 200, ⟨50, 100⟩, ⟨0, 0⟩, 20000, .inf⟩
        [.wxmax 150]).pos.x =
      ((applyWrites ⟨0, 100, 0, 200, ⟨50, 100⟩, ⟨0, 0⟩, 20000, .inf⟩
          [.wxmax 150]).xmax -
        (applyWrites ⟨0, 100, 0, 200, ⟨50, 100⟩, ⟨0, 0⟩, 20000, .inf⟩
          [.wxmax 150]).xmin) / 2 :=
  (C1_center_invariant ⟨0, 100, 0, 200, ⟨50, 100⟩, ⟨0, 0⟩, 20000, .inf⟩
      [.wxmax 150]).1 ⟨.wxmax 150, by simp, rfl⟩

/-- C2: for a body whose extents satisfy `xmin ≤ xmax` and `ymin ≤ ymax`,
`primitive()` succeeds and returns a new body with the same `bbox()` and with
zero velocity. -/
theorem C2_primitive_bbox (b : AABB) (hx : b.xmin ≤ b.xmax) (hy : b.ymin ≤ b.ymax) :
    ∃ p, b.primitive = .ok p ∧ p.bbox = b.bbox ∧ p.vel = ⟨0, 0⟩ := by
  refine ⟨LinearRigidBody.init b.xmin b.xmax b.ymin b.ymax
    ((b.xmin + b.xmax) / 2, (b.ymin + b.ymax) / 2) (0, 0) none none, ?_, rfl, rfl⟩
  simp only [AABB.primitive, AABB.init, aabb_bbox, AABB.bbox]
  rw [if_pos ⟨hx, hy⟩]

/-- Witness for C2 at a concrete body with nonzero velocity. -/
theorem C2_primitive_bbox_witness :
    ∃ p, AABB.primitive ⟨0, 100, 0, 200, ⟨50, 100⟩, ⟨3, 4⟩, 20000, .inf⟩ = .ok p ∧
      p.bbox = AABB.bbox ⟨0, 100, 0, 200, ⟨50, 100⟩, ⟨3, 4⟩, 20000, .inf⟩ ∧
      p.vel = ⟨0, 0⟩ :=
  C2_primitive_bbox ⟨0, 100, 0, 200, ⟨50, 100⟩, ⟨3, 4⟩, 20000, .inf⟩
    (by norm_num) (by norm_num)

end FGAme

namespace FGAme

/-- C3: for valid extents (`xmin ≤ xmax`, `ymin ≤ ymax`), constructing via
`bbox=(xmin, xmax, ymin, ymax)`, via `rect=(xmin, ymin, xmax - xmin, ymax - ymin)`,
and via the four individual extents (positional `AABB(xmin, xmax, ymin, ymax)`
and keyword extents are the same call in this embedding) all succeed and yield
identical `bbox()` output. -/
theorem C3_construction_equivalence (a b c d : ℚ) (hx : a ≤ b) (hy : c ≤ d) :
    (AABB.init none none none none none (0, 0) none none (some (a, b, c, d))
        none none).map AABB.bbox = .ok (a, b, c, d) ∧
    (AABB.init none none none none none (0, 0) none none none none
        (some (a, c, b - a, d - c))).map AABB.bbox = .ok (a, b, c, d) ∧
    (AABB.init (some a) (some b) (some c) (some d) none (0, 0) none none none
        none none).map AABB.bbox = .ok (a, b, c, d) := by
  have h1 : a + (b - a) = b := by ring
  have h2 : c + (d - c) = d := by ring
  refine ⟨?_, ?_, ?_⟩ <;>
    simp [AABB.init, aabb_bbox, LinearRigidBody.init, AABB.bbox, Except.map,
      h1, h2, hx, hy]

/-- Witness for C3 at the extents `(0, 100, 0, 200)`. -/
theorem C3_construction_equivalence_witness :
    (AABB.init none none none none none (0, 0) none none (some (0, 100, 0, 200))
        none none).map AABB.bbox = .ok (0, 100, 0, 200) ∧
    (AABB.init none none none none none (0, 0) none none none none
        (some (0, 0, 100 - 0, 200 - 0))).map AABB.bbox = .ok (0, 100, 0, 200) ∧
    (AABB.init (some 0) (some 100) (some 0) (some 200) none (0, 0) none none none
        none none).map AABB.bbox = .ok (0, 100, 0, 200) :=
  C3_construction_equivalence 0 100 0 200 (by norm_num) (by norm_num)

/-- With an explicit mass, construction does not depend on the density
argument at all: the whole resulting state is identical. -/
theorem init_mass_ignores_density (xmin? xmax? ymin? ymax? : Option ℚ)
    (pos? : Option (ℚ × ℚ)) (vel : ℚ × ℚ) (m : ℚ) (density? density2? : Option ℚ)
    (bbox? : Option (ℚ × ℚ × ℚ × ℚ)) (shape? : Option (ℚ × ℚ))
    (rect? : Option (ℚ × ℚ × ℚ × ℚ)) :
    AABB.init xmin? xmax? ymin? ymax? pos? vel (some m) density? bbox? shape? rect? =
      AABB.init xmin? xmax? ymin? ymax? pos? vel (some m) density2? bbox? shape? rect? := by
  unfold AABB.init
  cases aabb_bbox bbox? rect? shape? pos? xmin? xmax? ymin? ymax? with
  | error e => rfl
  | ok r =>
    obtain ⟨x0, x1, y0, y1⟩ := r
    rfl

/-- C5: with a density `d` and no explicit mass, the constructed mass is
`area() * d`; with neither mass nor density, density defaults to `1`; with an
explicit mass `m`, the mass is `m` and the whole state is unaffected by the
density argument; concretely, `shape=(100, 200)` at the default origin gives
`bbox() = (-50, 50, -100, 100)` and `mass = 20000`. -/
theorem C5_mass_derivation :
    (∀ xmin? xmax? ymin? ymax? pos? vel (d : ℚ) bbox? shape? rect? (s : AABB),
        AABB.init xmin? xmax? ymin? ymax? pos? vel none (some d) bbox? shape?
            rect? = .ok s →
          s.mass = s.area * d) ∧
    (∀ xmin? xmax? ymin? ymax? pos? vel bbox? shape? rect? (s : AABB),
        AABB.init xmin? xmax? ymin? ymax? pos? vel none none bbox? shape?
            rect? = .ok s →
          s.mass = s.area * 1) ∧
    (∀ xmin? xmax? ymin? ymax? pos? vel (m : ℚ) density? density2? bbox? shape?
        rect? (s s2 : AABB),
        AABB.init xmin? xmax? ymin? ymax? pos? vel (some m) density? bbox?
            shape? rect? = .ok s →
        AABB.init xmin? xmax? ymin? ymax? pos? vel (some m) density2? bbox?
            shape? rect? = .ok s2 →
          s.mass = m ∧ s2 = s) ∧
    (AABB.init none none none none none (0, 0) none none none (some (100, 200))
        none).map (fun s => (s.bbox, s.mass)) = .ok ((-50, 50, -100, 100), 20000) := by
  refine ⟨?_, ?_, ?_, ?_⟩
  · intro xmin? xmax? ymin? ymax? pos? vel d bbox? shape? rect? s h
    obtain ⟨x0, x1, y0, y1, rfl⟩ :=
      init_ok_elim xmin? xmax? ymin? ymax? pos? vel none (some d) bbox? shape?
        rect? s h
    simp [LinearRigidBody.init, AABB.area]
  · intro xmin? xmax? ymin? ymax? pos? vel bbox? shape? rect? s h
    obtain ⟨x0, x1, y0, y1, rfl⟩ :=
      init_ok_elim xmin? xmax? ymin? ymax? pos? vel none none bbox? shape?
        rect? s h
    simp [LinearRigidBody.init, AABB.area]
  · intro xmin? xmax? ymin? ymax? pos? vel m density? density2? bbox? shape?
      rect? s s2 h h2
    rw [init_mass_ignores_density xmin? xmax? ymin? ymax? pos? vel m density2?
      density? bbox? shape? rect?, h] at h2
    obtain ⟨x0, x1, y0, y1, rfl⟩ :=
      init_ok_elim xmin? xmax? ymin? ymax? pos? vel (some m) density? bbox?
        shape? rect? s h
    exact ⟨rfl, (Except.ok.injEq _ _ ▸ h2 : _ = _).symm ▸ rfl⟩
  · norm_num [AABB.init, aabb_bbox, LinearRigidBody.init, AABB.bbox, Except.map]

/-- Witness for C5: density `2` on the box `(0, 100, 0, 200)` gives
`mass = area * 2`. -/
theorem C5_mass_derivation_witness :
    ∃ s, AABB.init none none none none none (0, 0) none (some 2)
        (some (0, 100, 0, 200)) none none = .ok s ∧ s.mass = s.area * 2 := by
  have h : AABB.init none none none none none (0, 0) none (some 2)
      (some (0, 100, 0, 200)) none none =
      .ok ⟨0, 100, 0, 200, ⟨50, 100⟩, ⟨0, 0⟩, 40000, .inf⟩ := by
    norm_num [AABB.init, aabb_bbox, LinearRigidBody.init]
  exact ⟨_, h, C5_mass_derivation.1 none none none none none (0, 0) 2
    (some (0, 100, 0, 200)) none none _ h⟩

/-- Extent writes never touch the inertia attribute. -/
theorem applyWrites_inertia (b : AABB) (l : List ExtentWrite) :
    (applyWrites b l).inertia = b.inertia := by
  induction l generalizing b with
  | nil => rfl
  | cons w t ih =>
    have hstep : applyWrites b (w :: t) = applyWrites (applyWrite b w) t := rfl
    rw [hstep, ih]
    cases w <;> rfl

/-- C6: however a body is constructed and whatever sequence of extent writes
is applied afterwards, the inertia attribute is positive infinity. -/
theorem C6_inertia_constancy (xmin? xmax? ymin? ymax? : Option ℚ)
    (pos? : Option (ℚ × ℚ)) (vel : ℚ × ℚ) (mass? density? : Option ℚ)
    (bbox? : Option (ℚ × ℚ × ℚ × ℚ)) (shape? : Option (ℚ × ℚ))
    (rect? : Option (ℚ × ℚ × ℚ × ℚ)) (s : AABB)
    (h : AABB.init xmin? xmax? ymin? ymax? pos? vel mass? density? bbox? shape?
      rect? = .ok s) (l : List ExtentWrite) :
    (applyWrites s l).inertia = .inf := by
  rw [applyWrites_inertia]
  obtain ⟨x0, x1, y0, y1, rfl⟩ :=
    init_ok_elim xmin? xmax? ymin? ymax? pos? vel mass? density? bbox? shape?
      rect? s h
  rfl

/-- Witness for C6: the box `(0, 100, 0, 200)` after an `xmax := 150` write. -/
theorem C6_inertia_constancy_witness :
    (applyWrites ⟨0, 100, 0, 200, ⟨50, 100⟩, ⟨0, 0⟩, 20000, .inf⟩
      [.wxmax 150]).inertia = .inf := by
  have h : AABB.init none none none none none (0, 0) none none
      (some (0, 100, 0, 200)) none none =
      .ok ⟨0, 100, 0, 200, ⟨50, 100⟩, ⟨0, 0⟩, 20000, .inf⟩ := by
    norm_num [AABB.init, aabb_bbox, LinearRigidBody.init]
  exact C6_inertia_constancy none none none none none (0, 0) none none
    (some (0, 100, 0, 200)) none none _ h [.wxmax 150]

end FGAme
